import Mathlib

/-!
Verification of the convoy storage-orchestration daemon against its
natural-language specification.

The Go sources are shallowly embedded: string-keyed Go maps become
association lists, fallible calls return `Except String`, stateful
handlers thread an explicit daemon state, and external collaborators
(driver binaries, the object store, the filesystem) are parameters of
the embedding.
-/

set_option autoImplicit false

namespace Convoy


/-- Association-list model of a Go `map[string]α`: lookup. -/
def mget {α : Type} : List (String × α) → String → Option α
  | [], _ => none
  | (k, v) :: rest, key => if k = key then some v else mget rest key

/-- Go map read with the zero value as default (`m[k]` on a missing key). -/
def mgetD {α : Type} (m : List (String × α)) (key : String) (dflt : α) : α :=
  match mget m key with
  | some v => v
  | none => dflt

/-- Go map assignment `m[k] = v`: overwrite the binding if present, else append. -/
def mset {α : Type} : List (String × α) → String → α → List (String × α)
  | [], key, val => [(key, val)]
  | (k, v) :: rest, key, val =>
    if k = key then (k, val) :: rest else (k, v) :: mset rest key val

/-- Go map removal `delete(m, k)`. -/
def mdel {α : Type} : List (String × α) → String → List (String × α)
  | [], _ => []
  | (k, v) :: rest, key =>
    if k = key then mdel rest key else (k, v) :: mdel rest key

/-!
## Identity Index

Modelled from the spec: the generic uniqueness-enforcing Identity Index
(`util` package `Index` type) is exercised by `src/util/util_test.go`
(`TestIndex`) but its implementation file is not among the provided
sources.  Per spec section 4.1: `Add(key, value)` fails with a conflict
error if `key` already maps to a different `value`, and with an
invalid-argument error if `key` or `value` is empty; otherwise it inserts
and returns success, including the idempotent re-add of the same value.
`Get(key)` returns the bound value or the empty string when unbound and
never errors.  `Delete(key)` fails with a programming-invariant error if
`key` is empty or not currently bound; otherwise it removes the binding.
The error strings follow the shapes pinned down by `TestIndex`.
-/

structure Index where
  entries : List (String × String)

def Index.Get (idx : Index) (key : String) : String :=
  match mget idx.entries key with
  | some v => v
  | none => ""

def Index.Add (idx : Index) (key value : String) : Except String Index :=
  if key = "" then
    .error "BUG: Invalid empty index key"
  else if value = "" then
    .error "BUG: Invalid empty index value"
  else
    match mget idx.entries key with
    | some oldValue =>
      if oldValue = value then
        .ok idx
      else
        .error ("BUG: Conflict when updating index, for key " ++ key ++
          ", existing value " ++ oldValue ++ ", new value " ++ value)
    | none => .ok { entries := mset idx.entries key value }

def Index.Delete (idx : Index) (key : String) : Except String Index :=
  if key = "" then
    .error "BUG: Invalid empty index key"
  else
    match mget idx.entries key with
    | none => .error ("BUG: About to remove non-existed key " ++ key)
    | some _ => .ok { entries := mdel idx.entries key }

/-!
Modelled from the spec: the UUID existence index used by the daemon
(`s.UUIDIndex`, called with a single argument in `src/daemon/snapshot.go`)
is not among the provided sources.  Per spec section 3 it is the set of
all UUIDs currently allocated to any volume or snapshot; adding a
duplicate UUID or removing a non-existent UUID is a programming-invariant
violation, and the generic index contract rejects an empty key.
-/

structure UUIDIndex where
  uuids : List String

def UUIDIndex.Add (idx : UUIDIndex) (uuid : String) : Except String UUIDIndex :=
  if uuid = "" then
    .error "BUG: Invalid empty index key"
  else if uuid ∈ idx.uuids then
    .error ("BUG: UUID " ++ uuid ++ " already exists in index")
  else
    .ok { uuids := uuid :: idx.uuids }

def UUIDIndex.Delete (idx : UUIDIndex) (uuid : String) : Except String UUIDIndex :=
  if uuid = "" then
    .error "BUG: Invalid empty index key"
  else if uuid ∈ idx.uuids then
    .ok { uuids := idx.uuids.erase uuid }
  else
    .error ("BUG: About to remove non-existed key " ++ uuid)

/-!
## Daemon data model and snapshot handlers (src/daemon/snapshot.go)

Constants from the convoydriver package (its source is not among the
provided files); only their distinctness matters to the handlers.
-/

def OPT_VOLUME_UUID : String := "VolumeUUID"

def OPT_VOLUME_NAME : String := "VolumeName"

def OPT_VOLUME_CREATED_TIME : String := "VolumeCreatedAt"

def OPT_SNAPSHOT_NAME : String := "SnapshotName"

def OPT_SNAPSHOT_CREATED_TIME : String := "SnapshotCreatedAt"

def OPT_BACKUP_URL : String := "BackupURL"

def OPT_SIZE : String := "Size"

def OPT_PREPARE_FOR_VM : String := "PrepareForVM"

def OPT_MOUNT_POINT : String := "MountPoint"

def OPT_FILESYSTEM : String := "FileSystem"

structure Snapshot where
  UUID : String := ""
  VolumeUUID : String := ""

structure Volume where
  UUID : String := ""
  Name : String := ""
  CreatedTime : String := ""
  Snapshots : List (String × Snapshot) := []

/-- Snapshot-operations capability of a resolved driver
(`convoydriver.SnapshotOperations`), with each driver call embedded as a
function supplied by the environment. -/
structure SnapOps where
  name : String
  createSnapshot : String → List (String × String) → Except String Unit
  deleteSnapshot : String → List (String × String) → Except String Unit
  getSnapshotInfo : String → List (String × String) → Except String (List (String × String))

/-- Backup-operations capability of a resolved driver
(`convoydriver.BackupOperations`). -/
structure BackupOps where
  name : String
  createBackup : String → String → String → List (String × String) → Except String String
  deleteBackup : String → Except String Unit
  getBackupInfo : String → Except String (List (String × String))
  listBackup : String → List (String × String) → Except String (List (String × List (String × String)))

/-- A loaded driver as the daemon sees it: a name plus its optional
backup-operations capability (`driver.BackupOps()` either returns the
operation set or a not-supported error). -/
structure ConvoyDriver where
  name : String
  backupOps : Except String BackupOps

/-- Daemon state: the three indices, the persisted volume records keyed by
UUID (spec section 6: volumes are persisted one record per UUID and the
indices are rebuilt from them), and the registry of loaded drivers. -/
structure DaemonState where
  NameUUIDIndex : Index
  UUIDIndex : UUIDIndex
  SnapshotVolumeIndex : Index
  volumes : List (String × Volume)
  ConvoyDrivers : List (String × ConvoyDriver)

/-- External collaborators of the daemon handlers, embedded as functions:
UUID/name validation (`util.CheckUUID` / `util.CheckName`), capability
resolution for a volume's driver (`getSnapshotOpsForVolume` /
`getBackupOpsForVolume`), the volume driver-info call, durable persistence
of a volume record, and URL unescaping (`util.UnescapeURL`). -/
structure DaemonEnv where
  checkUUID : String → Except String Unit
  checkName : String → Except String Unit
  getSnapshotOps : Volume → Except String SnapOps
  getBackupOps : Volume → Except String BackupOps
  getVolumeDriverInfo : Volume → Except String (List (String × String))
  persist : Volume → Except String Unit
  unescapeURL : String → String

/-- Modelled from the spec: `s.loadVolume` (daemon volume persistence, not
among the provided files) reads the volume record keyed by UUID. -/
def loadVolume (s : DaemonState) (volumeUUID : String) : Option Volume :=
  mget s.volumes volumeUUID

/-- Modelled from the spec: `s.saveVolume` persists the volume record keyed
by its UUID; the write itself may fail (disk error), supplied by the
environment. -/
def saveVolume (env : DaemonEnv) (s : DaemonState) (v : Volume) :
    DaemonState × Except String Unit :=
  match env.persist v with
  | .error e => (s, .error e)
  | .ok _ => ({ s with volumes := mset s.volumes v.UUID v }, .ok ())

/-- Embeds `daemon.snapshotExists`. -/
def snapshotExists (s : DaemonState) (volumeUUID snapshotUUID : String) : Bool :=
  match loadVolume s volumeUUID with
  | none => false
  | some volume => (mget volume.Snapshots snapshotUUID).isSome

/-- Embeds `daemon.getSnapshotDriverInfo`: resolve the snapshot capability,
query the driver for the snapshot's info, and record the driver name under
the "Driver" key. -/
def getSnapshotDriverInfo (env : DaemonEnv) (snapshotUUID : String) (volume : Volume) :
    Except String (List (String × String)) :=
  match env.getSnapshotOps volume with
  | .error e => .error e
  | .ok snapOps =>
    match snapOps.getSnapshotInfo snapshotUUID [(OPT_VOLUME_UUID, volume.UUID)] with
    | .error e => .error e
    | .ok driverInfo => .ok (mset driverInfo "Driver" snapOps.name)

structure SnapshotResponse where
  UUID : String := ""
  VolumeUUID : String := ""
  VolumeName : String := ""
  VolumeCreatedAt : String := ""
  Name : String := ""
  CreatedTime : String := ""
  DriverInfo : List (String × String) := []

/-- The possible handler responses written to the HTTP response writer. -/
inductive Response where
  | str (s : String)
  | snapshot (r : SnapshotResponse)
  | backup (url : String)
  | info (m : List (String × String))
  | backups (m : List (String × List (String × String)))

structure SnapshotCreateRequest where
  VolumeUUID : String := ""
  Name : String := ""
  Verbose : Bool := false

structure SnapshotDeleteRequest where
  SnapshotUUID : String := ""

structure SnapshotInspectRequest where
  SnapshotUUID : String := ""

/-- Embeds `daemon.doSnapshotCreate`.  `freshUUID` is the UUID minted by
`uuid.New()`; the request carries no snapshot UUID.  The state is threaded
explicitly and returned even on error, since the handler performs no
rollback of already-applied index mutations. -/
def doSnapshotCreate (env : DaemonEnv) (freshUUID : String)
    (request : SnapshotCreateRequest) (s : DaemonState) :
    DaemonState × Except String Response :=
  match env.checkUUID request.VolumeUUID with
  | .error e => (s, .error e)
  | .ok _ =>
    match (if request.Name = "" then Except.ok () else
        match env.checkName request.Name with
        | .error e => .error e
        | .ok _ =>
          let existUUID := s.NameUUIDIndex.Get request.Name
          if existUUID = "" then Except.ok ()
          else .error ("Snapshot name " ++ request.Name ++ " already associated with " ++
            existUUID)) with
    | .error e => (s, .error e)
    | .ok _ =>
      match loadVolume s request.VolumeUUID with
      | none => (s, .error ("volume " ++ request.VolumeUUID ++ " doesn't exist"))
      | some volume =>
        match env.getSnapshotOps volume with
        | .error e => (s, .error e)
        | .ok snapOps =>
          match snapOps.createSnapshot freshUUID
              [(OPT_VOLUME_UUID, request.VolumeUUID), (OPT_SNAPSHOT_NAME, request.Name)] with
          | .error e => (s, .error e)
          | .ok _ =>
            let snapshot : Snapshot := { UUID := freshUUID, VolumeUUID := request.VolumeUUID }
            let volume1 : Volume :=
              { volume with Snapshots := mset volume.Snapshots freshUUID snapshot }
            match s.UUIDIndex.Add snapshot.UUID with
            | .error e => (s, .error e)
            | .ok uidx =>
              let s1 : DaemonState := { s with UUIDIndex := uidx }
              match s1.SnapshotVolumeIndex.Add snapshot.UUID volume.UUID with
              | .error e => (s1, .error e)
              | .ok svidx =>
                let s2 : DaemonState := { s1 with SnapshotVolumeIndex := svidx }
                match (if request.Name = "" then Except.ok s2.NameUUIDIndex
                    else s2.NameUUIDIndex.Add request.Name snapshot.UUID) with
                | .error e => (s2, .error e)
                | .ok nidx =>
                  let s3 : DaemonState := { s2 with NameUUIDIndex := nidx }
                  match saveVolume env s3 volume1 with
                  | (s4, .error e) => (s4, .error e)
                  | (s4, .ok _) =>
                    match getSnapshotDriverInfo env snapshot.UUID volume1 with
                    | .error e => (s4, .error e)
                    | .ok driverInfo =>
                      if request.Verbose then
                        (s4, .ok (Response.snapshot
                          { UUID := snapshot.UUID
                            VolumeUUID := snapshot.VolumeUUID
                            Name := mgetD driverInfo OPT_SNAPSHOT_NAME ""
                            CreatedTime := mgetD driverInfo OPT_SNAPSHOT_CREATED_TIME ""
                            DriverInfo := driverInfo }))
                      else
                        (s4, .ok (Response.str snapshot.UUID))

/-- Embeds `daemon.doSnapshotDelete`.  The guard `!s.snapshotExists(...)` is
unfolded into its two cases (missing volume record, missing snapshot-map
entry); both produce the same error string, and the Go code only reaches
the loaded volume when the guard passed. -/
def doSnapshotDelete (env : DaemonEnv) (request : SnapshotDeleteRequest) (s : DaemonState) :
    DaemonState × Except String Unit :=
  match env.checkUUID request.SnapshotUUID with
  | .error e => (s, .error e)
  | .ok _ =>
    let snapshotUUID := request.SnapshotUUID
    let volumeUUID := s.SnapshotVolumeIndex.Get snapshotUUID
    if volumeUUID = "" then
      (s, .error ("cannot find volume for snapshot " ++ snapshotUUID))
    else
      match loadVolume s volumeUUID with
      | none =>
        (s, .error ("snapshot " ++ snapshotUUID ++ " of volume " ++ volumeUUID ++
          " doesn't exist"))
      | some volume =>
        if (mget volume.Snapshots snapshotUUID).isNone then
          (s, .error ("snapshot " ++ snapshotUUID ++ " of volume " ++ volumeUUID ++
            " doesn't exist"))
        else
          match env.getSnapshotOps volume with
          | .error e => (s, .error e)
          | .ok snapOps =>
            match getSnapshotDriverInfo env snapshotUUID volume with
            | .error e => (s, .error e)
            | .ok snapshotInfo =>
              let snapshotName := mgetD snapshotInfo OPT_SNAPSHOT_NAME ""
              match snapOps.deleteSnapshot snapshotUUID [(OPT_VOLUME_UUID, volumeUUID)] with
              | .error e => (s, .error e)
              | .ok _ =>
                match s.UUIDIndex.Delete snapshotUUID with
                | .error e => (s, .error e)
                | .ok uidx =>
                  let s1 : DaemonState := { s with UUIDIndex := uidx }
                  match s1.SnapshotVolumeIndex.Delete snapshotUUID with
                  | .error e => (s1, .error e)
                  | .ok svidx =>
                    let s2 : DaemonState := { s1 with SnapshotVolumeIndex := svidx }
                    match (if snapshotName = "" then Except.ok s2.NameUUIDIndex
                        else s2.NameUUIDIndex.Delete snapshotName) with
                    | .error e => (s2, .error e)
                    | .ok nidx =>
                      let s3 : DaemonState := { s2 with NameUUIDIndex := nidx }
                      let volume1 : Volume :=
                        { volume with Snapshots := mdel volume.Snapshots snapshotUUID }
                      saveVolume env s3 volume1

/-- Embeds `daemon.doSnapshotInspect` (read-only: the state is not changed). -/
def doSnapshotInspect (env : DaemonEnv) (request : SnapshotInspectRequest) (s : DaemonState) :
    Except String Response :=
  match env.checkUUID request.SnapshotUUID with
  | .error e => .error e
  | .ok _ =>
    let snapshotUUID := request.SnapshotUUID
    let volumeUUID := s.SnapshotVolumeIndex.Get snapshotUUID
    if volumeUUID = "" then
      .error ("cannot find volume for snapshot " ++ snapshotUUID)
    else
      match loadVolume s volumeUUID with
      | none => .error ("cannot find volume " ++ volumeUUID)
      | some volume =>
        match getSnapshotDriverInfo env snapshotUUID volume with
        | .error _ =>
          .error ("cannot find snapshot " ++ snapshotUUID ++ " of volume " ++ volumeUUID)
        | .ok snapshotInfo =>
          match getSnapshotDriverInfo env snapshotUUID volume with
          | .error e => .error e
          | .ok driverInfo =>
            .ok (Response.snapshot
              { UUID := snapshotUUID
                VolumeUUID := volume.UUID
                VolumeName := volume.Name
                VolumeCreatedAt := volume.CreatedTime
                Name := mgetD snapshotInfo OPT_SNAPSHOT_NAME ""
                CreatedTime := mgetD snapshotInfo OPT_SNAPSHOT_CREATED_TIME ""
                DriverInfo := driverInfo })

def snapOpsA : SnapOps :=
  { name := "vfs"
    createSnapshot := fun _ _ => .ok ()
    deleteSnapshot := fun _ _ => .ok ()
    getSnapshotInfo := fun _ _ =>
      .ok [(OPT_SNAPSHOT_NAME, "s1"), (OPT_SNAPSHOT_CREATED_TIME, "t0")] }

def snapEnvA : DaemonEnv :=
  { checkUUID := fun _ => .ok ()
    checkName := fun _ => .ok ()
    getSnapshotOps := fun _ => .ok snapOpsA
    getBackupOps := fun _ => .error "Backup ops not supported"
    getVolumeDriverInfo := fun _ => .ok []
    persist := fun _ => .ok ()
    unescapeURL := fun u => u }

def volA : Volume := { UUID := "vol-1", Name := "v1" }

def stateA : DaemonState :=
  { NameUUIDIndex := ⟨[("v1", "vol-1")]⟩
    UUIDIndex := ⟨["vol-1"]⟩
    SnapshotVolumeIndex := ⟨[]⟩
    volumes := [("vol-1", volA)]
    ConvoyDrivers := [] }

/-!
## Backup handlers (daemon backup request surface and driver resolution)
-/

/-- Volume metadata record stored with a backup (`objectstore.Volume`). -/
structure ObjVolume where
  UUID : String := ""
  Name : String := ""
  Driver : String := ""
  FileSystem : String := ""
  CreatedTime : String := ""

/-- External objectstore collaborators, embedded as functions:
`objectstore.GetObjectStoreDriver` succeeds exactly when the URL's scheme
matches a known object-store backend, `objectstore.LoadVolume` fetches the
backup's stored volume metadata, and `parseScheme` is `url.Parse` followed
by reading the scheme. -/
structure ObjectStoreEnv where
  getObjectStoreDriver : String → Except String Unit
  loadVolume : String → Except String ObjVolume
  parseScheme : String → Except String String

/-- Final step of `daemon.getBackupOpsForBackup`: look the resolved driver
name up in `s.ConvoyDrivers` and ask it for its backup capability. -/
def lookupBackupOps (s : DaemonState) (driverName : String) : Except String BackupOps :=
  match mget s.ConvoyDrivers driverName with
  | none => .error ("Cannot find driver " ++ driverName ++ " for restoring")
  | some driver => driver.backupOps

/-- Embeds `daemon.getBackupOpsForBackup`: two-tier driver resolution.  When
the URL's scheme matches a known object-store backend the driver name is the
`Driver` field of the backup's stored volume metadata; otherwise the URL's
scheme itself is used as driver name. -/
def getBackupOpsForBackup (os : ObjectStoreEnv) (s : DaemonState) (requestURL : String) :
    Except String BackupOps :=
  match (match os.getObjectStoreDriver requestURL with
    | .ok _ =>
      match os.loadVolume requestURL with
      | .error e => Except.error e
      | .ok objVolume => Except.ok objVolume.Driver
    | .error _ =>
      match os.parseScheme requestURL with
      | .error e => Except.error e
      | .ok scheme => Except.ok scheme) with
  | .error e => .error e
  | .ok driverName => lookupBackupOps s driverName

structure BackupCreateRequest where
  URL : String := ""
  SnapshotUUID : String := ""
  Verbose : Bool := false

structure BackupDeleteRequest where
  URL : String := ""

structure BackupListRequest where
  URL : String := ""
  VolumeUUID : String := ""

/-- Embeds `daemon.doBackupInspect` (read-only). -/
def doBackupInspect (env : DaemonEnv) (os : ObjectStoreEnv)
    (request : BackupListRequest) (s : DaemonState) : Except String Response :=
  let url := env.unescapeURL request.URL
  match getBackupOpsForBackup os s url with
  | .error e => .error e
  | .ok backupOps =>
    match backupOps.getBackupInfo url with
    | .error e => .error e
    | .ok info => .ok (Response.info info)

/-- Embeds `daemon.doBackupDelete`. -/
def doBackupDelete (env : DaemonEnv) (os : ObjectStoreEnv)
    (request : BackupDeleteRequest) (s : DaemonState) : Except String Unit :=
  let url := env.unescapeURL request.URL
  match getBackupOpsForBackup os s url with
  | .error e => .error e
  | .ok backupOps => backupOps.deleteBackup url

def osEnvA : ObjectStoreEnv :=
  { getObjectStoreDriver := fun u => if u = "s3://bucket@us-east-1/" then .ok ()
      else .error "not an objectstore"
    loadVolume := fun _ => .ok { UUID := "vol-1", Driver := "vfs" }
    parseScheme := fun u => if u = "ebs://some/backup" then .ok "ebs"
      else .error "url parse error" }

/-- Character-list core of Go `strings.Replace` for a one-character pattern:
replaces up to `n` occurrences left to right; a negative `n` means no limit,
and `n = 0` leaves the list unchanged. -/
def replaceCharsLimited : List Char → Char → List Char → Int → List Char
  | [], _, _, _ => []
  | c :: rest, old, rep, n =>
    if n ≠ 0 ∧ c = old then rep ++ replaceCharsLimited rest old rep (n - 1)
    else c :: replaceCharsLimited rest old rep n

/-- Go `strings.Replace(s, old, rep, n)` restricted to a one-character `old`,
which is how `doBackupCreate` calls it (`old = "&"`, `n = 1`). -/
def stringsReplaceChar (s : String) (old : Char) (rep : String) (n : Int) : String :=
  ⟨replaceCharsLimited s.data old rep.data n⟩

/-- Embeds `daemon.doBackupCreate` (read-only with respect to daemon state;
the handler takes no global lock and mutates no index). -/
def doBackupCreate (env : DaemonEnv) (request : BackupCreateRequest) (s : DaemonState) :
    Except String Response :=
  let url := env.unescapeURL request.URL
  let snapshotUUID := request.SnapshotUUID
  let volumeUUID := s.SnapshotVolumeIndex.Get snapshotUUID
  if volumeUUID = "" then
    .error ("Cannot find volume of snapshot " ++ snapshotUUID)
  else
    match loadVolume s volumeUUID with
    | none =>
      .error ("snapshot " ++ snapshotUUID ++ " of volume " ++ volumeUUID ++ " doesn't exist")
    | some volume =>
      if (mget volume.Snapshots snapshotUUID).isNone then
        .error ("snapshot " ++ snapshotUUID ++ " of volume " ++ volumeUUID ++
          " doesn't exist")
      else
        match env.getBackupOps volume with
        | .error e => .error e
        | .ok backupOps =>
          match env.getVolumeDriverInfo volume with
          | .error e => .error e
          | .ok volumeInfo =>
            match getSnapshotDriverInfo env snapshotUUID volume with
            | .error e => .error e
            | .ok snapshotInfo =>
              let opts := [
                (OPT_VOLUME_NAME, mgetD volumeInfo OPT_VOLUME_NAME ""),
                (OPT_VOLUME_CREATED_TIME, mgetD volumeInfo OPT_VOLUME_CREATED_TIME ""),
                (OPT_SNAPSHOT_NAME, mgetD snapshotInfo OPT_SNAPSHOT_NAME ""),
                (OPT_SNAPSHOT_CREATED_TIME, mgetD snapshotInfo OPT_SNAPSHOT_CREATED_TIME "")]
              match backupOps.createBackup snapshotUUID volumeUUID url opts with
              | .error e => .error e
              | .ok backupURL =>
                if request.Verbose then
                  .ok (Response.backup backupURL)
                else
                  .ok (Response.str (stringsReplaceChar backupURL '&' "\\u0026" 1))

/-- C6 counterexample input: a daemon whose driver returns a backup URL
containing two ampersand characters. -/
def backupOpsC6 : BackupOps :=
  { name := "vfs"
    createBackup := fun _ _ _ _ => .ok "vfs://store?volume=v1&snapshot=s1&kind=full"
    deleteBackup := fun _ => .ok ()
    getBackupInfo := fun _ => .ok []
    listBackup := fun _ _ => .ok [] }

def envC6 : DaemonEnv :=
  { checkUUID := fun _ => .ok ()
    checkName := fun _ => .ok ()
    getSnapshotOps := fun _ => .ok snapOpsA
    getBackupOps := fun _ => .ok backupOpsC6
    getVolumeDriverInfo := fun _ => .ok []
    persist := fun _ => .ok ()
    unescapeURL := fun u => u }

def stateC6 : DaemonState :=
  { NameUUIDIndex := ⟨[]⟩
    UUIDIndex := ⟨["vol-1", "snap-1"]⟩
    SnapshotVolumeIndex := ⟨[("snap-1", "vol-1")]⟩
    volumes := [("vol-1", { UUID := "vol-1", Snapshots := [("snap-1", ⟨"snap-1", "vol-1"⟩)] })]
    ConvoyDrivers := [] }

/-- Go `for k, v := range infos { result[k] = v }`: merge one driver's
listing into the aggregate map. -/
def mergeInto (result infos : List (String × List (String × String))) :
    List (String × List (String × String)) :=
  infos.foldl (fun acc kv => mset acc kv.1 kv.2) result

/-- Loop body of `daemon.doBackupList` over `s.ConvoyDrivers`: a driver
whose `BackupOps()` errors is skipped with `continue`; a listing error from
a supporting driver fails the whole loop; otherwise the listing is merged
into the aggregate result.  (Go map iteration order is unspecified; the
embedding iterates the registry list in order, and the claim is
order-independent.) -/
def backupListDrivers (url : String) (opts : List (String × String)) :
    List (String × ConvoyDriver) → List (String × List (String × String)) →
    Except String (List (String × List (String × String)))
  | [], result => .ok result
  | (_, driver) :: rest, result =>
    match driver.backupOps with
    | .error _ => backupListDrivers url opts rest result
    | .ok backupOps =>
      match backupOps.listBackup url opts with
      | .error e => .error e
      | .ok infos => backupListDrivers url opts rest (mergeInto result infos)

/-- Embeds `daemon.doBackupList`. -/
def doBackupList (env : DaemonEnv) (request : BackupListRequest) (s : DaemonState) :
    Except String Response :=
  let url := env.unescapeURL request.URL
  let opts := [(OPT_VOLUME_UUID, request.VolumeUUID)]
  match backupListDrivers url opts s.ConvoyDrivers [] with
  | .error e => .error e
  | .ok result => .ok (Response.backups result)

/-- Total merge of the listings of every supporting driver, ignoring
errors; used to characterize the loop's result on the all-success path. -/
def mergeAllBackups (url : String) (opts : List (String × String)) :
    List (String × ConvoyDriver) → List (String × List (String × String)) →
    List (String × List (String × String))
  | [], result => result
  | (_, driver) :: rest, result =>
    match driver.backupOps with
    | .error _ => mergeAllBackups url opts rest result
    | .ok backupOps =>
      match backupOps.listBackup url opts with
      | .error _ => mergeAllBackups url opts rest result
      | .ok infos => mergeAllBackups url opts rest (mergeInto result infos)

/-- The ceph driver's backup capability accessor, from `src/ceph/ceph.go`:
it always reports not-supported. -/
def cephBackupOps : Except String BackupOps := .error "Backup ops not supported"

/-- Witness inputs for the backup-list fan-out: a supporting vfs driver
reporting one backup, registered next to the not-supported ceph driver. -/
def vfsListOpsW : BackupOps :=
  { name := "vfs"
    createBackup := fun _ _ _ _ => .ok ""
    deleteBackup := fun _ => .ok ()
    getBackupInfo := fun _ => .ok []
    listBackup := fun _ _ => .ok [("backup-1", [("Driver", "vfs")])] }

def cephDriverW : ConvoyDriver := { name := "ceph", backupOps := cephBackupOps }

def vfsDriverW : ConvoyDriver := { name := "vfs", backupOps := .ok vfsListOpsW }

/-!
## The vfs driver (src/vfs/vfs_storage.go)
-/

def vfsDriverName : String := "vfs"

structure VfsSnapshot where
  UUID : String := ""
  VolumeUUID : String := ""
  FilePath : String := ""

structure VfsVolume where
  UUID : String := ""
  Size : Int := 0
  Path : String := ""
  MountPoint : String := ""
  PrepareForVM : Bool := false
  Snapshots : List (String × VfsSnapshot) := []

structure VfsDevice where
  Root : String := ""
  Path : String := ""
  DefaultVolumeSize : Int := 0

/-- Filesystem and object-store effects performed by the vfs driver,
tracked explicitly: directories created (`util.MkdirIfNotExists`),
volume records saved (`util.ObjectSave`), backup blobs downloaded
(`objectstore.RestoreSingleFileBackup`, recorded as URL and target
path) and decompressed (`util.DecompressDir`). -/
structure VfsWorld where
  dirsMade : List String := []
  savedVolumes : List (String × VfsVolume) := []
  restores : List (String × String) := []
  decompressions : List (String × String) := []

/-- External collaborators of the vfs driver, embedded as functions. -/
structure VfsEnv where
  loadVolume : String → Except String ObjVolume
  objectExists : String → Except String Bool
  parseSize : String → Except String Int
  mkdir : String → Except String Unit
  restoreSingleFileBackup : String → String → Except String String
  decompressDir : String → String → Except String Unit

/-- Go `strconv.ParseBool`. -/
def goParseBool (s : String) : Except String Bool :=
  if s = "1" ∨ s = "t" ∨ s = "T" ∨ s = "true" ∨ s = "TRUE" ∨ s = "True" then .ok true
  else if s = "0" ∨ s = "f" ∨ s = "F" ∨ s = "false" ∨ s = "FALSE" ∨ s = "False" then .ok false
  else .error ("strconv.ParseBool: parsing " ++ s ++ ": invalid syntax")

/-- Embeds `vfs.Driver.getSize`. -/
def vfsGetSize (env : VfsEnv) (opts : List (String × String)) (defaultVolumeSize : Int) :
    Except String Int :=
  let size := mgetD opts OPT_SIZE ""
  let size := if size = "" ∨ size = "0" then toString defaultVolumeSize else size
  env.parseSize size

/-- Embeds `vfs.Driver.CreateVolume`.  The world of filesystem effects is
threaded explicitly and returned also on error, so that the theorems can
state exactly which effects a failing call has performed. -/
def vfsCreateVolume (env : VfsEnv) (d : VfsDevice) (id : String)
    (opts : List (String × String)) (w : VfsWorld) : VfsWorld × Except String Unit :=
  let backupURL := mgetD opts OPT_BACKUP_URL ""
  match (if backupURL = "" then Except.ok () else
      match env.loadVolume backupURL with
      | .error e => Except.error e
      | .ok objVolume =>
        if objVolume.Driver ≠ vfsDriverName then
          Except.error ("Cannot restore backup of " ++ objVolume.Driver ++ " to " ++
            vfsDriverName)
        else Except.ok ()) with
  | .error e => (w, .error e)
  | .ok _ =>
    let volumeName0 := mgetD opts OPT_VOLUME_NAME ""
    let volumeName := if volumeName0 = "" then "volume-" ++ id.take 8 else volumeName0
    match env.objectExists id with
    | .error e => (w, .error e)
    | .ok true => (w, .error ("volume " ++ id ++ " already exists"))
    | .ok false =>
      match goParseBool (mgetD opts OPT_PREPARE_FOR_VM "") with
      | .error e => (w, .error e)
      | .ok prepareForVM =>
        match (if prepareForVM then vfsGetSize env opts d.DefaultVolumeSize
            else Except.ok 0) with
        | .error e => (w, .error e)
        | .ok size =>
          let volumePath := d.Path ++ "/" ++ volumeName
          match env.mkdir volumePath with
          | .error e => (w, .error e)
          | .ok _ =>
            let w1 : VfsWorld := { w with dirsMade := w.dirsMade ++ [volumePath] }
            let volume : VfsVolume :=
              { UUID := id, Size := size, Path := volumePath,
                PrepareForVM := prepareForVM, Snapshots := [] }
            match (if backupURL = "" then Except.ok w1 else
                match env.restoreSingleFileBackup backupURL volumePath with
                | .error e => Except.error e
                | .ok file =>
                  let w2 : VfsWorld :=
                    { w1 with restores := w1.restores ++ [(backupURL, volumePath)] }
                  match env.decompressDir file volumePath with
                  | .error e => Except.error e
                  | .ok _ => Except.ok
                      { w2 with decompressions :=
                          w2.decompressions ++ [(file, volumePath)] }) with
            | .error e => (w1, .error e)
            | .ok w3 =>
              ({ w3 with savedVolumes := mset w3.savedVolumes id volume }, .ok ())

def vfsEnvC5 : VfsEnv :=
  { loadVolume := fun _ => .ok { UUID := "vol-e", Driver := "ebs" }
    objectExists := fun _ => .ok false
    parseSize := fun _ => .ok 0
    mkdir := fun _ => .ok ()
    restoreSingleFileBackup := fun _ _ => .ok "backup.tar.gz"
    decompressDir := fun _ _ => .ok () }

/-!
## Generic mount helpers (src/unnamed/part_000, package util)

The reflective field accessors (`getVolumeUUID`, `getVolumeMountPoint`,
`setVolumeMountPoint`) always succeed for a proper volume object (the code
panics otherwise), so the volume is embedded directly as a record with the
two required fields; the `VolumeHelper` methods and the host state are
environment parameters.
-/

/-- Host-visible action performed by the mount helpers. -/
inductive MountAction where
  | mkdir (path : String)
  | mount (dev mountPoint : String)
  | umount (mountPoint : String)
  | removeDir (path : String)

structure UtilVolume where
  UUID : String := ""
  MountPoint : String := ""

/-- Methods of the mounted volume object and the host environment:
`GetDevice`, `GetMountOpts`, `GenerateDefaultMountPoint`,
`util.MkdirIfNotExists`, the `os.Stat`-is-a-directory test, the
`isMounted` scan of current mounts, and the mount/umount/remove commands. -/
structure MountEnv where
  getDevice : Except String String
  mountOpts : List String
  defaultMountPoint : String
  mkdirIfNotExists : String → Except String Unit
  statIsDir : String → Bool
  isMounted : String → String → Bool
  callMount : List String → String → String → Except String String
  callUmount : String → Except String Unit
  removeDir : String → Except String Unit

/-- Embeds `util.VolumeMount` from src/unnamed/part_000.  Returns the
result, the (possibly updated) volume object, and the host actions taken. -/
def VolumeMount (env : MountEnv) (v : UtilVolume) (mountPoint : String) :
    Except String String × UtilVolume × List MountAction :=
  match env.getDevice with
  | .error e => (.error e, v, [])
  | .ok dev =>
    let opts := env.mountOpts
    match (if mountPoint = "" then
        match env.mkdirIfNotExists env.defaultMountPoint with
        | .error e => Except.error e
        | .ok _ =>
          Except.ok (env.defaultMountPoint, [MountAction.mkdir env.defaultMountPoint])
      else Except.ok (mountPoint, ([] : List MountAction))) with
    | .error e => (.error e, v, [])
    | .ok (mp, acts) =>
      if ¬ env.statIsDir mp then
        (.error ("Specified mount point " ++ mp ++ " is not a directory"), v, acts)
      else
        let existMount := v.MountPoint
        if existMount ≠ "" ∧ existMount ≠ mp then
          (.error ("Volume " ++ v.UUID ++ " was already mounted at " ++ existMount ++
            ", but asked to mount at " ++ mp), v, acts)
        else
          if env.isMounted dev mp then
            (.ok mp, { v with MountPoint := mp }, acts)
          else
            match env.callMount opts dev mp with
            | .error e => (.error e, v, acts ++ [MountAction.mount dev mp])
            | .ok _ => (.ok mp, { v with MountPoint := mp },
                acts ++ [MountAction.mount dev mp])

/-- Embeds `util.VolumeUmount` from src/unnamed/part_000.  A failure of
`os.Remove` on the default mount point directory is only logged. -/
def VolumeUmount (env : MountEnv) (v : UtilVolume) :
    Except String Unit × UtilVolume × List MountAction :=
  let mountPoint := v.MountPoint
  if mountPoint = "" then
    (.ok (), v, [])
  else
    match env.callUmount mountPoint with
    | .error e => (.error e, v, [MountAction.umount mountPoint])
    | .ok _ =>
      if mountPoint = env.defaultMountPoint then
        match env.removeDir mountPoint with
        | .error _ =>
          (.ok (), { v with MountPoint := "" }, [MountAction.umount mountPoint])
        | .ok _ =>
          (.ok (), { v with MountPoint := "" },
            [MountAction.umount mountPoint, MountAction.removeDir mountPoint])
      else
        (.ok (), { v with MountPoint := "" }, [MountAction.umount mountPoint])

def mountEnvW : MountEnv :=
  { getDevice := .ok "/dev/loop7"
    mountOpts := []
    defaultMountPoint := "/mnt/default"
    mkdirIfNotExists := fun _ => .ok ()
    statIsDir := fun _ => true
    isMounted := fun _ _ => false
    callMount := fun _ _ _ => .ok ""
    callUmount := fun _ => .ok ()
    removeDir := fun _ => .ok () }

/-!
## Theorems
-/

theorem mget_mset_self {α : Type} (m : List (String × α)) (key : String) (val : α) :
    mget (mset m key val) key = some val := by
  induction m with
  | nil => simp [mget, mset]
  | cons kv rest ih =>
    obtain ⟨k, v⟩ := kv
    by_cases h : k = key <;> simp [mget, mset, h, ih]

theorem mget_mset_ne {α : Type} (m : List (String × α)) (key key2 : String) (val : α)
    (h : key ≠ key2) : mget (mset m key val) key2 = mget m key2 := by
  induction m with
  | nil => simp [mget, mset, h]
  | cons kv rest ih =>
    obtain ⟨k, v⟩ := kv
    by_cases hk : k = key
    · subst hk; simp [mget, mset, h]
    · simp only [mset, if_neg hk, mget]
      by_cases hk2 : k = key2 <;> simp [hk2, ih]

theorem mget_mdel_self {α : Type} (m : List (String × α)) (key : String) :
    mget (mdel m key) key = none := by
  induction m with
  | nil => simp [mget, mdel]
  | cons kv rest ih =>
    obtain ⟨k, v⟩ := kv
    by_cases h : k = key
    · simp [mdel, h, ih]
    · simp [mdel, mget, h, ih]

/-- C1: for the generic Identity Index, `Add(key, value)` fails with a conflict
error whenever `key` is already bound to a different value (among nonempty
arguments), fails with an invalid-argument error whenever `key` or `value` is
empty, and succeeds otherwise (including the idempotent re-add of the same
value); `Get(key)` returns the bound value, or the empty string when unbound,
and never errors (it is total); `Delete(key)` fails whenever `key` is empty or
not currently bound and succeeds, removing the binding, otherwise.  In the
embedding a failing `Delete` returns only an error and no index, so the
caller's index is left unchanged. -/
theorem index_contract (idx : Index) (key value : String) :
    ((key = "" ∨ value = "") →
      idx.Add key value = .error "BUG: Invalid empty index key" ∨
      idx.Add key value = .error "BUG: Invalid empty index value") ∧
    (∀ oldValue, key ≠ "" → value ≠ "" → mget idx.entries key = some oldValue →
      oldValue ≠ value →
      idx.Add key value = .error ("BUG: Conflict when updating index, for key " ++ key ++
        ", existing value " ++ oldValue ++ ", new value " ++ value)) ∧
    (key ≠ "" → value ≠ "" → mget idx.entries key = none →
      idx.Add key value = .ok { entries := mset idx.entries key value }) ∧
    (key ≠ "" → value ≠ "" → mget idx.entries key = some value →
      idx.Add key value = .ok idx) ∧
    (∀ v, mget idx.entries key = some v → idx.Get key = v) ∧
    (mget idx.entries key = none → idx.Get key = "") ∧
    (key = "" → idx.Delete key = .error "BUG: Invalid empty index key") ∧
    (key ≠ "" → mget idx.entries key = none →
      idx.Delete key = .error ("BUG: About to remove non-existed key " ++ key)) ∧
    (∀ v, key ≠ "" → mget idx.entries key = some v →
      idx.Delete key = .ok { entries := mdel idx.entries key } ∧
        Index.Get { entries := mdel idx.entries key } key = "") := by
  refine ⟨?_, ?_, ?_, ?_, ?_, ?_, ?_, ?_, ?_⟩
  · rintro (h | h)
    · left; simp [Index.Add, h]
    · by_cases hk : key = ""
      · left; simp [Index.Add, hk]
      · right; simp [Index.Add, hk, h]
  · intro oldValue hk hv hget hne
    simp [Index.Add, hk, hv, hget, hne]
  · intro hk hv hget
    simp [Index.Add, hk, hv, hget]
  · intro hk hv hget
    simp [Index.Add, hk, hv, hget]
  · intro v hget
    simp [Index.Get, hget]
  · intro hget
    simp [Index.Get, hget]
  · intro hk
    simp [Index.Delete, hk]
  · intro hk hget
    simp [Index.Delete, hk, hget]
  · intro v hk hget
    refine ⟨by simp [Index.Delete, hk, hget], ?_⟩
    simp [Index.Get, mget_mdel_self]

/-- Concrete exercise of `index_contract` at the bindings used by `TestIndex`:
a conflicting re-add fails, `Get` returns the bound value, and deleting an
unbound key fails. -/
theorem index_contract_witness :
    Index.Add ⟨[("key1", "value1")]⟩ "key1" "value2" =
      .error "BUG: Conflict when updating index, for key key1, existing value value1, new value value2" ∧
    Index.Get ⟨[("key1", "value1")]⟩ "key1" = "value1" ∧
    Index.Delete ⟨[("key1", "value1")]⟩ "keyx" =
      .error "BUG: About to remove non-existed key keyx" :=
  ⟨(index_contract ⟨[("key1", "value1")]⟩ "key1" "value2").2.1 "value1"
      (by decide) (by decide) rfl (by decide),
   (index_contract ⟨[("key1", "value1")]⟩ "key1" "value2").2.2.2.2.1 "value1" rfl,
   (index_contract ⟨[("key1", "value1")]⟩ "keyx" "x").2.2.2.2.2.2.2.1
      (by decide) rfl⟩

/-- C2: for every snapshot-create request whose volume UUID is well-formed,
whose volume exists, whose optional name (if supplied) is valid and not
already bound, and whose driver create-snapshot call succeeds (with the
daemon-generated `freshUUID` fresh in the indices, the driver info call and
persistence succeeding): the daemon registers the snapshot in the volume's
snapshot map, adds the UUID existence entry, adds the snapshot-to-volume
ownership entry, adds the name binding if a name was supplied, and persists
the updated volume record; the response is the snapshot UUID, or the
driver-reported name/created-time/raw info when verbose.  The caller
supplies no snapshot UUID: the request type has no such field and the
minted `freshUUID` is an argument of the handler. -/
theorem snapshot_create_success
    (env : DaemonEnv) (s : DaemonState) (request : SnapshotCreateRequest)
    (freshUUID : String) (volume : Volume) (snapOps snapOps2 : SnapOps)
    (info : List (String × String))
    (hcheck : env.checkUUID request.VolumeUUID = .ok ())
    (hname : request.Name = "" ∨
      (request.Name ≠ "" ∧ env.checkName request.Name = .ok () ∧
        mget s.NameUUIDIndex.entries request.Name = none))
    (hvol : loadVolume s request.VolumeUUID = some volume)
    (hops : env.getSnapshotOps volume = .ok snapOps)
    (hcreate : snapOps.createSnapshot freshUUID
      [(OPT_VOLUME_UUID, request.VolumeUUID), (OPT_SNAPSHOT_NAME, request.Name)] = .ok ())
    (hfresh0 : freshUUID ≠ "")
    (hfresh1 : freshUUID ∉ s.UUIDIndex.uuids)
    (hfresh2 : mget s.SnapshotVolumeIndex.entries freshUUID = none)
    (hvid : volume.UUID ≠ "")
    (hops2 : env.getSnapshotOps
      { volume with Snapshots := mset volume.Snapshots freshUUID ⟨freshUUID, request.VolumeUUID⟩ } = .ok snapOps2)
    (hinfo : snapOps2.getSnapshotInfo freshUUID [(OPT_VOLUME_UUID, volume.UUID)] = .ok info)
    (hpersist : env.persist
      { volume with Snapshots := mset volume.Snapshots freshUUID ⟨freshUUID, request.VolumeUUID⟩ } = .ok ()) :
    doSnapshotCreate env freshUUID request s =
      ({ s with
          UUIDIndex := ⟨freshUUID :: s.UUIDIndex.uuids⟩
          SnapshotVolumeIndex := ⟨mset s.SnapshotVolumeIndex.entries freshUUID volume.UUID⟩
          NameUUIDIndex := if request.Name = "" then s.NameUUIDIndex
            else ⟨mset s.NameUUIDIndex.entries request.Name freshUUID⟩
          volumes := mset s.volumes volume.UUID
            { volume with Snapshots := mset volume.Snapshots freshUUID ⟨freshUUID, request.VolumeUUID⟩ } },
       .ok (if request.Verbose then
          Response.snapshot
            { UUID := freshUUID
              VolumeUUID := request.VolumeUUID
              Name := mgetD (mset info "Driver" snapOps2.name) OPT_SNAPSHOT_NAME ""
              CreatedTime := mgetD (mset info "Driver" snapOps2.name) OPT_SNAPSHOT_CREATED_TIME ""
              DriverInfo := mset info "Driver" snapOps2.name }
        else Response.str freshUUID)) := by
  rcases hname with hn | ⟨hne, hcn, hng⟩
  · rw [hn] at hcreate
    cases hvb : request.Verbose <;>
      simp [doSnapshotCreate, hcheck, hn, hvol, hops, hcreate, UUIDIndex.Add, hfresh0,
        hfresh1, Index.Add, hfresh2, hvid, saveVolume, hpersist, getSnapshotDriverInfo,
        hops2, hinfo, hvb]
  · have hgetname : s.NameUUIDIndex.Get request.Name = "" := by
      simp [Index.Get, hng]
    cases hvb : request.Verbose <;>
      simp [doSnapshotCreate, hcheck, hne, hcn, hgetname, hvol, hops, hcreate,
        UUIDIndex.Add, hfresh0, hfresh1, Index.Add, hfresh2, hvid, hng, saveVolume,
        hpersist, getSnapshotDriverInfo, hops2, hinfo, hvb]

/-- Concrete run of `snapshot_create_success`: an unnamed, non-verbose
snapshot create on volume `vol-1` with minted UUID `snap-1` registers the
snapshot everywhere and responds with the bare UUID. -/
theorem snapshot_create_success_witness :
    doSnapshotCreate snapEnvA "snap-1"
      { VolumeUUID := "vol-1", Name := "", Verbose := false } stateA =
      ({ stateA with
          UUIDIndex := ⟨["snap-1", "vol-1"]⟩
          SnapshotVolumeIndex := ⟨[("snap-1", "vol-1")]⟩
          volumes := [("vol-1",
            { volA with Snapshots := [("snap-1", ⟨"snap-1", "vol-1"⟩)] })] },
       .ok (Response.str "snap-1")) :=
  snapshot_create_success snapEnvA stateA
    { VolumeUUID := "vol-1", Name := "", Verbose := false } "snap-1" volA
    snapOpsA snapOpsA [(OPT_SNAPSHOT_NAME, "s1"), (OPT_SNAPSHOT_CREATED_TIME, "t0")]
    rfl (Or.inl rfl) rfl rfl rfl (by decide) (by decide) rfl (by decide) rfl rfl rfl

/-- C3: for every snapshot-delete request with a well-formed snapshot UUID,
the daemon (a) fails with not-found when the snapshot-to-volume ownership
index has no entry; (b) fails when the snapshot is absent from the resolved
volume's snapshot map (or the volume record is missing); (c) on the success
path — driver info and driver delete succeeding, the bookkeeping
consistent — removes the ownership index entry, the UUID existence entry,
the optional name binding, and the snapshot-map entry, and persists the
volume; afterwards re-inspecting the snapshot fails with not-found, the
volume's snapshot map no longer contains it, and the ownership index no
longer resolves it. -/
theorem snapshot_delete_spec (env : DaemonEnv) (s : DaemonState)
    (request : SnapshotDeleteRequest)
    (hcheck : env.checkUUID request.SnapshotUUID = .ok ()) :
    (s.SnapshotVolumeIndex.Get request.SnapshotUUID = "" →
      doSnapshotDelete env request s =
        (s, .error ("cannot find volume for snapshot " ++ request.SnapshotUUID))) ∧
    (∀ volumeUUID volume,
      s.SnapshotVolumeIndex.Get request.SnapshotUUID = volumeUUID →
      volumeUUID ≠ "" →
      loadVolume s volumeUUID = some volume →
      mget volume.Snapshots request.SnapshotUUID = none →
      doSnapshotDelete env request s =
        (s, .error ("snapshot " ++ request.SnapshotUUID ++ " of volume " ++ volumeUUID ++
          " doesn't exist"))) ∧
    (∀ volumeUUID volume snapOps info snap snapName nameOwner,
      s.SnapshotVolumeIndex.Get request.SnapshotUUID = volumeUUID →
      volumeUUID ≠ "" →
      loadVolume s volumeUUID = some volume →
      mget volume.Snapshots request.SnapshotUUID = some snap →
      env.getSnapshotOps volume = .ok snapOps →
      snapOps.getSnapshotInfo request.SnapshotUUID [(OPT_VOLUME_UUID, volume.UUID)] = .ok info →
      mgetD (mset info "Driver" snapOps.name) OPT_SNAPSHOT_NAME "" = snapName →
      snapOps.deleteSnapshot request.SnapshotUUID [(OPT_VOLUME_UUID, volumeUUID)] = .ok () →
      request.SnapshotUUID ≠ "" →
      request.SnapshotUUID ∈ s.UUIDIndex.uuids →
      (snapName = "" ∨ mget s.NameUUIDIndex.entries snapName = some nameOwner) →
      env.persist { volume with Snapshots := mdel volume.Snapshots request.SnapshotUUID } =
        .ok () →
      doSnapshotDelete env request s =
        ({ s with
            UUIDIndex := ⟨s.UUIDIndex.uuids.erase request.SnapshotUUID⟩
            SnapshotVolumeIndex := ⟨mdel s.SnapshotVolumeIndex.entries request.SnapshotUUID⟩
            NameUUIDIndex := if snapName = "" then s.NameUUIDIndex
              else ⟨mdel s.NameUUIDIndex.entries snapName⟩
            volumes := mset s.volumes volume.UUID
              { volume with Snapshots := mdel volume.Snapshots request.SnapshotUUID } },
         .ok ()) ∧
      (∀ sF, doSnapshotDelete env request s = (sF, .ok ()) →
        sF.SnapshotVolumeIndex.Get request.SnapshotUUID = "" ∧
        loadVolume sF volume.UUID =
          some { volume with Snapshots := mdel volume.Snapshots request.SnapshotUUID } ∧
        mget (mdel volume.Snapshots request.SnapshotUUID) request.SnapshotUUID = none ∧
        doSnapshotInspect env ⟨request.SnapshotUUID⟩ sF =
          .error ("cannot find volume for snapshot " ++ request.SnapshotUUID))) := by
  refine ⟨?_, ?_, ?_⟩
  · intro hmiss
    simp [doSnapshotDelete, hcheck, hmiss]
  · intro volumeUUID volume hget hne hload habsent
    simp [doSnapshotDelete, hcheck, hget, hne, hload, habsent]
  · intro volumeUUID volume snapOps info snap snapName nameOwner hget hne hload hsnap
      hops hinfo hsn hdel hsu0 hsu1 hnm hpersist
    have hsv : mget s.SnapshotVolumeIndex.entries request.SnapshotUUID = some volumeUUID := by
      unfold Index.Get at hget
      cases hmv : mget s.SnapshotVolumeIndex.entries request.SnapshotUUID with
      | none => rw [hmv] at hget; simp at hget; exact absurd hget.symm hne
      | some v => rw [hmv] at hget; simp at hget; rw [hget]
    have hrun : doSnapshotDelete env request s =
        ({ s with
            UUIDIndex := ⟨s.UUIDIndex.uuids.erase request.SnapshotUUID⟩
            SnapshotVolumeIndex := ⟨mdel s.SnapshotVolumeIndex.entries request.SnapshotUUID⟩
            NameUUIDIndex := if snapName = "" then s.NameUUIDIndex
              else ⟨mdel s.NameUUIDIndex.entries snapName⟩
            volumes := mset s.volumes volume.UUID
              { volume with Snapshots := mdel volume.Snapshots request.SnapshotUUID } },
         .ok ()) := by
      rcases hnm with hnm | hnm
      · simp [doSnapshotDelete, hcheck, hget, hne, hload, hsnap, hops,
          getSnapshotDriverInfo, hinfo, hsn, hnm, hdel, UUIDIndex.Delete, hsu0, hsu1,
          Index.Delete, hsv, saveVolume, hpersist]
      · by_cases hsne : snapName = ""
        · simp [doSnapshotDelete, hcheck, hget, hne, hload, hsnap, hops,
            getSnapshotDriverInfo, hinfo, hsn, hsne, hdel, UUIDIndex.Delete, hsu0, hsu1,
            Index.Delete, hsv, saveVolume, hpersist]
        · simp [doSnapshotDelete, hcheck, hget, hne, hload, hsnap, hops,
            getSnapshotDriverInfo, hinfo, hsn, hsne, hnm, hdel, UUIDIndex.Delete, hsu0,
            hsu1, Index.Delete, hsv, saveVolume, hpersist]
    refine ⟨hrun, ?_⟩
    intro sF hsF
    rw [hrun] at hsF
    have hsFeq : sF = { s with
        UUIDIndex := ⟨s.UUIDIndex.uuids.erase request.SnapshotUUID⟩
        SnapshotVolumeIndex := ⟨mdel s.SnapshotVolumeIndex.entries request.SnapshotUUID⟩
        NameUUIDIndex := if snapName = "" then s.NameUUIDIndex
          else ⟨mdel s.NameUUIDIndex.entries snapName⟩
        volumes := mset s.volumes volume.UUID
          { volume with Snapshots := mdel volume.Snapshots request.SnapshotUUID } } :=
      (congrArg Prod.fst hsF).symm
    subst hsFeq
    have hown : Index.Get
        ⟨mdel s.SnapshotVolumeIndex.entries request.SnapshotUUID⟩ request.SnapshotUUID
        = "" := by
      simp [Index.Get, mget_mdel_self]
    refine ⟨hown, ?_, ?_, ?_⟩
    · simp [loadVolume, mget_mset_self]
    · exact mget_mdel_self _ _
    · simp [doSnapshotInspect, hcheck, hown]

/-- Concrete exercise of `snapshot_delete_spec`: deleting snapshot `snap-9`
of volume `vol-9` removes it from the ownership index, the UUID index and
the volume's snapshot map, and a subsequent inspect reports not-found. -/
theorem snapshot_delete_spec_witness :
    doSnapshotDelete snapEnvA { SnapshotUUID := "snap-9" }
      { NameUUIDIndex := ⟨[("s1", "snap-9")]⟩
        UUIDIndex := ⟨["snap-9", "vol-9"]⟩
        SnapshotVolumeIndex := ⟨[("snap-9", "vol-9")]⟩
        volumes := [("vol-9",
          { UUID := "vol-9", Snapshots := [("snap-9", ⟨"snap-9", "vol-9"⟩)] })]
        ConvoyDrivers := [] } =
      ({ NameUUIDIndex := ⟨[]⟩
         UUIDIndex := ⟨["vol-9"]⟩
         SnapshotVolumeIndex := ⟨[]⟩
         volumes := [("vol-9", { UUID := "vol-9", Snapshots := [] })]
         ConvoyDrivers := [] }, .ok ()) :=
  ((snapshot_delete_spec snapEnvA
      { NameUUIDIndex := ⟨[("s1", "snap-9")]⟩
        UUIDIndex := ⟨["snap-9", "vol-9"]⟩
        SnapshotVolumeIndex := ⟨[("snap-9", "vol-9")]⟩
        volumes := [("vol-9",
          { UUID := "vol-9", Snapshots := [("snap-9", ⟨"snap-9", "vol-9"⟩)] })]
        ConvoyDrivers := [] }
      { SnapshotUUID := "snap-9" } rfl).2.2 "vol-9"
      { UUID := "vol-9", Snapshots := [("snap-9", ⟨"snap-9", "vol-9"⟩)] }
      snapOpsA [(OPT_SNAPSHOT_NAME, "s1"), (OPT_SNAPSHOT_CREATED_TIME, "t0")]
      ⟨"snap-9", "vol-9"⟩ "s1" "snap-9"
      rfl (by decide) rfl rfl rfl rfl rfl rfl (by decide) (by decide)
      (Or.inr rfl) rfl).1

/-- C4: the daemon resolves the driver handling a backup URL in two tiers —
the stored metadata's `Driver` field when the scheme is a known object-store
backend, the scheme itself otherwise — and in both cases the request fails
when no loaded driver has the resolved name; the delete and inspect handlers
fail whenever this resolution fails. -/
theorem backup_driver_resolution (os : ObjectStoreEnv) (s : DaemonState) (url : String) :
    (∀ objVolume, os.getObjectStoreDriver url = .ok () →
      os.loadVolume url = .ok objVolume →
      getBackupOpsForBackup os s url = lookupBackupOps s objVolume.Driver) ∧
    (∀ e scheme, os.getObjectStoreDriver url = .error e →
      os.parseScheme url = .ok scheme →
      getBackupOpsForBackup os s url = lookupBackupOps s scheme) ∧
    (∀ driverName, mget s.ConvoyDrivers driverName = none →
      lookupBackupOps s driverName =
        .error ("Cannot find driver " ++ driverName ++ " for restoring")) ∧
    (∀ env request e, getBackupOpsForBackup os s (DaemonEnv.unescapeURL env request.URL) =
        .error e → doBackupDelete env os request s = .error e) ∧
    (∀ env request e, getBackupOpsForBackup os s (DaemonEnv.unescapeURL env request.URL) =
        .error e → doBackupInspect env os request s = .error e) := by
  refine ⟨?_, ?_, ?_, ?_, ?_⟩
  · intro objVolume hos hload
    simp [getBackupOpsForBackup, hos, hload]
  · intro e scheme hos hscheme
    simp [getBackupOpsForBackup, hos, hscheme]
  · intro driverName hmiss
    simp [lookupBackupOps, hmiss]
  · intro env request e hres
    simp [doBackupDelete, hres]
  · intro env request e hres
    simp [doBackupInspect, hres]

/-- Concrete exercise of `backup_driver_resolution`: an object-store URL
resolves through the stored metadata's `Driver` field, a non-object-store
URL resolves through its scheme, and an unknown name fails. -/
theorem backup_driver_resolution_witness :
    getBackupOpsForBackup osEnvA
      { NameUUIDIndex := ⟨[]⟩, UUIDIndex := ⟨[]⟩, SnapshotVolumeIndex := ⟨[]⟩,
        volumes := [], ConvoyDrivers := [] } "s3://bucket@us-east-1/" =
      lookupBackupOps
        { NameUUIDIndex := ⟨[]⟩, UUIDIndex := ⟨[]⟩, SnapshotVolumeIndex := ⟨[]⟩,
          volumes := [], ConvoyDrivers := [] } "vfs" ∧
    getBackupOpsForBackup osEnvA
      { NameUUIDIndex := ⟨[]⟩, UUIDIndex := ⟨[]⟩, SnapshotVolumeIndex := ⟨[]⟩,
        volumes := [], ConvoyDrivers := [] } "ebs://some/backup" =
      lookupBackupOps
        { NameUUIDIndex := ⟨[]⟩, UUIDIndex := ⟨[]⟩, SnapshotVolumeIndex := ⟨[]⟩,
          volumes := [], ConvoyDrivers := [] } "ebs" ∧
    lookupBackupOps
      { NameUUIDIndex := ⟨[]⟩, UUIDIndex := ⟨[]⟩, SnapshotVolumeIndex := ⟨[]⟩,
        volumes := [], ConvoyDrivers := [] } "vfs" =
      .error "Cannot find driver vfs for restoring" :=
  ⟨(backup_driver_resolution osEnvA
      { NameUUIDIndex := ⟨[]⟩, UUIDIndex := ⟨[]⟩, SnapshotVolumeIndex := ⟨[]⟩,
        volumes := [], ConvoyDrivers := [] } "s3://bucket@us-east-1/").1
      { UUID := "vol-1", Driver := "vfs" } rfl rfl,
   (backup_driver_resolution osEnvA
      { NameUUIDIndex := ⟨[]⟩, UUIDIndex := ⟨[]⟩, SnapshotVolumeIndex := ⟨[]⟩,
        volumes := [], ConvoyDrivers := [] } "ebs://some/backup").2.1
      "not an objectstore" "ebs" rfl rfl,
   (backup_driver_resolution osEnvA
      { NameUUIDIndex := ⟨[]⟩, UUIDIndex := ⟨[]⟩, SnapshotVolumeIndex := ⟨[]⟩,
        volumes := [], ConvoyDrivers := [] } "unused").2.2.1 "vfs" rfl⟩

/-- C6 (counterexample): a successful non-verbose backup create whose driver
URL contains two `&` characters returns a bare string in which only the
first `&` was replaced by the six-character sequence `&`; the second
`&` is still present, so not every `&` in the returned URL is escaped. -/
theorem backup_escape_counterexample :
    doBackupCreate envC6 { URL := "vfs://store", SnapshotUUID := "snap-1", Verbose := false }
      stateC6 =
      .ok (Response.str "vfs://store?volume=v1\\u0026snapshot=s1&kind=full") ∧
    '&' ∈ ("vfs://store?volume=v1\\u0026snapshot=s1&kind=full").data :=
  ⟨rfl, by decide⟩

/-- C6 (amended): every successful backup create returns, for some driver
backup URL, either that URL unmodified inside the structured verbose
response, or — non-verbose — the bare string obtained from it by escaping
only the FIRST `&` occurrence (Go `strings.Replace(url, "&", "&", 1)`). -/
theorem backup_escape_first (env : DaemonEnv) (request : BackupCreateRequest)
    (s : DaemonState) (resp : Response)
    (h : doBackupCreate env request s = .ok resp) :
    ∃ backupURL,
      (request.Verbose = true → resp = Response.backup backupURL) ∧
      (request.Verbose = false →
        resp = Response.str (stringsReplaceChar backupURL '&' "\\u0026" 1)) := by
  unfold doBackupCreate at h
  simp only [] at h
  split at h
  · exact absurd h (by simp)
  · split at h
    · exact absurd h (by simp)
    · split at h
      · exact absurd h (by simp)
      · split at h
        · exact absurd h (by simp)
        · split at h
          · exact absurd h (by simp)
          · split at h
            · exact absurd h (by simp)
            · split at h
              · exact absurd h (by simp)
              · rename_i backupURL heq
                refine ⟨backupURL, ?_, ?_⟩ <;> intro hv <;> rw [hv] at h <;>
                  simp at h <;> exact h.symm

/-- Concrete exercise of `backup_escape_first` at the counterexample input. -/
theorem backup_escape_first_witness :
    ∃ backupURL,
      (false = true → Response.str "vfs://store?volume=v1\\u0026snapshot=s1&kind=full" =
        Response.backup backupURL) ∧
      (false = false → Response.str "vfs://store?volume=v1\\u0026snapshot=s1&kind=full" =
        Response.str (stringsReplaceChar backupURL '&' "\\u0026" 1)) :=
  backup_escape_first envC6
    { URL := "vfs://store", SnapshotUUID := "snap-1", Verbose := false } stateC6
    (Response.str "vfs://store?volume=v1\\u0026snapshot=s1&kind=full") rfl

/-- C7: the backup-list fan-out queries every loaded driver; a driver whose
`BackupOps()` accessor errors (such as ceph's, which always reports
not-supported) is silently skipped anywhere in the registry and does not
change the aggregate result; a listing error from any supporting driver
fails the whole request; and when every supporting driver lists
successfully the result is the merge, keyed by backup identifier, of all
their listings — and `doBackupList` answers accordingly. -/
theorem backup_list_fanout (url : String) (opts : List (String × String)) :
    (∀ pre post kd acc err, kd.2.backupOps = Except.error err →
      backupListDrivers url opts (pre ++ kd :: post) acc =
        backupListDrivers url opts (pre ++ post) acc) ∧
    (∀ drivers acc kd ops err, kd ∈ drivers → kd.2.backupOps = .ok ops →
      ops.listBackup url opts = .error err →
      ∃ e, backupListDrivers url opts drivers acc = .error e) ∧
    (∀ drivers acc,
      (∀ kd, kd ∈ drivers → ∀ ops, kd.2.backupOps = Except.ok ops →
        ∃ m, ops.listBackup url opts = .ok m) →
      backupListDrivers url opts drivers acc =
        .ok (mergeAllBackups url opts drivers acc)) ∧
    (∀ env request s result,
      backupListDrivers (DaemonEnv.unescapeURL env request.URL)
        [(OPT_VOLUME_UUID, request.VolumeUUID)] s.ConvoyDrivers [] = .ok result →
      doBackupList env request s = .ok (Response.backups result)) := by
  refine ⟨?_, ?_, ?_, ?_⟩
  · intro pre post kd acc err hnosup
    induction pre generalizing acc with
    | nil =>
      obtain ⟨k, d⟩ := kd
      have hns : d.backupOps = Except.error err := hnosup
      simp only [List.nil_append, backupListDrivers, hns]
    | cons hd tl ih =>
      obtain ⟨k, d⟩ := hd
      cases hops : d.backupOps with
      | error e =>
        simp only [List.cons_append, backupListDrivers, hops]
        exact ih acc
      | ok ops =>
        cases hlb : ops.listBackup url opts with
        | error e => simp only [List.cons_append, backupListDrivers, hops, hlb]
        | ok infos =>
          simp only [List.cons_append, backupListDrivers, hops, hlb]
          exact ih (mergeInto acc infos)
  · intro drivers acc kd ops err hmem hops hlist
    induction drivers generalizing acc with
    | nil => exact absurd hmem (List.not_mem_nil kd)
    | cons hd tl ih =>
      obtain ⟨k, d⟩ := hd
      rcases List.mem_cons.mp hmem with heq | hmem2
      · subst heq
        have hops2 : d.backupOps = Except.ok ops := hops
        exact ⟨err, by simp only [backupListDrivers, hops2, hlist]⟩
      · cases hops2 : d.backupOps with
        | error e =>
          obtain ⟨e2, he2⟩ := ih acc hmem2
          exact ⟨e2, by simp only [backupListDrivers, hops2]; exact he2⟩
        | ok dops =>
          cases hdl : dops.listBackup url opts with
          | error e => exact ⟨e, by simp only [backupListDrivers, hops2, hdl]⟩
          | ok infos =>
            obtain ⟨e2, he2⟩ := ih (mergeInto acc infos) hmem2
            exact ⟨e2, by simp only [backupListDrivers, hops2, hdl]; exact he2⟩
  · intro drivers acc hall
    induction drivers generalizing acc with
    | nil => rfl
    | cons hd tl ih =>
      obtain ⟨k, d⟩ := hd
      cases hops : d.backupOps with
      | error e =>
        simp only [backupListDrivers, mergeAllBackups, hops]
        exact ih acc (fun kd hkd => hall kd (List.mem_cons_of_mem _ hkd))
      | ok ops =>
        obtain ⟨m, hm⟩ := hall (k, d) (List.mem_cons_self _ _) ops hops
        simp only [backupListDrivers, mergeAllBackups, hops, hm]
        exact ih (mergeInto acc m) (fun kd hkd => hall kd (List.mem_cons_of_mem _ hkd))
  · intro env request s result hloop
    simp [doBackupList, hloop]

theorem backup_list_fanout_witness :
    backupListDrivers "vfs:///store" []
      [("ceph", cephDriverW), ("vfs", vfsDriverW)] [] =
      .ok [("backup-1", [("Driver", "vfs")])] :=
  (backup_list_fanout "vfs:///store" []).2.2.1
    [("ceph", cephDriverW), ("vfs", vfsDriverW)] []
    (by
      intro kd hkd ops hops
      rcases List.mem_cons.mp hkd with heq | hkd2
      · subst heq
        exact absurd hops (by simp [cephDriverW, cephBackupOps])
      · rcases List.mem_cons.mp hkd2 with heq | hkd3
        · subst heq
          have hops2 : Except.ok vfsListOpsW = Except.ok ops := hops
          simp only [Except.ok.injEq] at hops2
          subst hops2
          exact ⟨[("backup-1", [("Driver", "vfs")])], rfl⟩
        · exact absurd hkd3 (List.not_mem_nil kd))

/-- C5: a create-volume request carrying a backup URL whose stored volume
metadata records a driver different from vfs fails with the descriptive
cross-driver error and performs no effect at all: the world of filesystem
and object-store effects is returned unchanged — no backing directory is
made, no volume record is saved, and no blob is downloaded. -/
theorem vfs_create_cross_driver_rejected (env : VfsEnv) (d : VfsDevice) (id : String)
    (opts : List (String × String)) (w : VfsWorld) (objVolume : ObjVolume)
    (hurl : mgetD opts OPT_BACKUP_URL "" ≠ "")
    (hload : env.loadVolume (mgetD opts OPT_BACKUP_URL "") = .ok objVolume)
    (hdrv : objVolume.Driver ≠ vfsDriverName) :
    vfsCreateVolume env d id opts w =
      (w, .error ("Cannot restore backup of " ++ objVolume.Driver ++ " to " ++
        vfsDriverName)) := by
  simp [vfsCreateVolume, hurl, hload, hdrv]

/-- Concrete exercise of `vfs_create_cross_driver_rejected`: restoring a
backup whose metadata records driver `ebs` into a vfs create request fails
with the cross-driver error and leaves the effect world empty. -/
theorem vfs_create_cross_driver_rejected_witness :
    vfsCreateVolume vfsEnvC5 { Path := "/vfs/root" } "vol-new"
      [(OPT_BACKUP_URL, "ebs://backup/1")] {} =
      ({}, .error "Cannot restore backup of ebs to vfs") :=
  vfs_create_cross_driver_rejected vfsEnvC5 { Path := "/vfs/root" } "vol-new"
    [(OPT_BACKUP_URL, "ebs://backup/1")] {} { UUID := "vol-e", Driver := "ebs" }
    (by decide) rfl (by decide)

theorem volumeMount_shape (env : MountEnv) (v : UtilVolume) (mountPoint : String) :
    (∃ e acts, VolumeMount env v mountPoint = (.error e, v, acts)) ∨
    (∃ r acts, VolumeMount env v mountPoint = (.ok r, { v with MountPoint := r }, acts)) := by
  unfold VolumeMount
  repeat' (first
    | exact Or.inl ⟨_, _, rfl⟩
    | exact Or.inr ⟨_, _, rfl⟩
    | split
    | simp only [])

theorem volumeUmount_ok_mountPoint (env : MountEnv) (v v2 : UtilVolume)
    (acts : List MountAction) (h : VolumeUmount env v = (.ok (), v2, acts)) :
    v2.MountPoint = "" := by
  unfold VolumeUmount at h
  simp only [] at h
  split at h
  · rename_i hmp
    have hv : v = v2 := congrArg (fun p => p.2.1) h
    rw [← hv]
    exact hmp
  · split at h
    · exact absurd (congrArg (fun p => p.1) h) (by simp)
    · split at h
      · split at h
        · have hv : ({ v with MountPoint := "" } : UtilVolume) = v2 :=
            congrArg (fun p => p.2.1) h
          rw [← hv]
        · have hv : ({ v with MountPoint := "" } : UtilVolume) = v2 :=
            congrArg (fun p => p.2.1) h
          rw [← hv]
      · have hv : ({ v with MountPoint := "" } : UtilVolume) = v2 :=
          congrArg (fun p => p.2.1) h
        rw [← hv]

/-- C9: when a volume object's recorded mount point is non-empty and differs
from the (non-empty) requested mount point, `VolumeMount` fails with the
already-mounted error and leaves the volume unchanged; when the recorded
mount point equals the requested one (and the device resolves, the mount
point is a directory, and the mount command succeeds or the device is
already mounted) the call succeeds and returns that mount point; and in
general every successful call records exactly the returned mount point on
the volume while every failing call leaves the volume unchanged — so a
volume is never recorded as mounted at two different locations. -/
theorem volume_mount_exclusive (env : MountEnv) (v : UtilVolume) (mountPoint : String) :
    (∀ dev, env.getDevice = .ok dev → mountPoint ≠ "" →
      env.statIsDir mountPoint = true →
      v.MountPoint ≠ "" → v.MountPoint ≠ mountPoint →
      VolumeMount env v mountPoint =
        (.error ("Volume " ++ v.UUID ++ " was already mounted at " ++ v.MountPoint ++
          ", but asked to mount at " ++ mountPoint), v, [])) ∧
    (∀ dev, env.getDevice = .ok dev → mountPoint ≠ "" →
      env.statIsDir mountPoint = true →
      v.MountPoint = mountPoint →
      (env.isMounted dev mountPoint = true →
        VolumeMount env v mountPoint = (.ok mountPoint, v, [])) ∧
      (∀ out, env.isMounted dev mountPoint = false →
        env.callMount env.mountOpts dev mountPoint = .ok out →
        VolumeMount env v mountPoint =
          (.ok mountPoint, v, [MountAction.mount dev mountPoint]))) ∧
    (∀ r v2 acts, VolumeMount env v mountPoint = (.ok r, v2, acts) →
      v2.MountPoint = r) ∧
    (∀ e v2 acts, VolumeMount env v mountPoint = (.error e, v2, acts) → v2 = v) := by
  refine ⟨?_, ?_, ?_, ?_⟩
  · intro dev hdev hmp hdir hex hne
    simp [VolumeMount, hdev, hmp, hdir, hex, hne]
  · intro dev hdev hmp hdir heq
    have hveq : { v with MountPoint := mountPoint } = v := by
      cases v
      rw [← heq]
    constructor
    · intro hism
      have hrun : VolumeMount env v mountPoint =
          (.ok mountPoint, { v with MountPoint := mountPoint }, []) := by
        simp [VolumeMount, hdev, hmp, hdir, heq, hism]
      rw [hrun, hveq]
    · intro out hism hcm
      have hrun : VolumeMount env v mountPoint =
          (.ok mountPoint, { v with MountPoint := mountPoint },
            [MountAction.mount dev mountPoint]) := by
        simp [VolumeMount, hdev, hmp, hdir, heq, hism, hcm]
      rw [hrun, hveq]
  · intro r v2 acts h
    rcases volumeMount_shape env v mountPoint with ⟨e, acts2, h2⟩ | ⟨r2, acts2, h2⟩
    · rw [h] at h2
      exact absurd (congrArg (fun p => p.1) h2) (by simp)
    · rw [h] at h2
      have hr : r2 = r := by
        have := congrArg (fun p => p.1) h2
        simpa using this.symm
      have hv : v2 = { v with MountPoint := r2 } := by
        have := congrArg (fun p => p.2.1) h2
        simpa using this
      rw [hv, hr]
  · intro e v2 acts h
    rcases volumeMount_shape env v mountPoint with ⟨e2, acts2, h2⟩ | ⟨r2, acts2, h2⟩
    · rw [h] at h2
      have := congrArg (fun p => p.2.1) h2
      simpa using this
    · rw [h] at h2
      exact absurd (congrArg (fun p => p.1) h2) (by simp)

/-- Concrete exercise of `volume_mount_exclusive`: a volume recorded at
`/mnt/a` refuses to mount at `/mnt/b` and stays unchanged, and mounting it
again at `/mnt/a` succeeds. -/
theorem volume_mount_exclusive_witness :
    VolumeMount mountEnvW { UUID := "vol-m", MountPoint := "/mnt/a" } "/mnt/b" =
      (.error "Volume vol-m was already mounted at /mnt/a, but asked to mount at /mnt/b",
       { UUID := "vol-m", MountPoint := "/mnt/a" }, []) ∧
    VolumeMount mountEnvW { UUID := "vol-m", MountPoint := "/mnt/a" } "/mnt/a" =
      (.ok "/mnt/a", { UUID := "vol-m", MountPoint := "/mnt/a" },
       [MountAction.mount "/dev/loop7" "/mnt/a"]) :=
  ⟨(volume_mount_exclusive mountEnvW { UUID := "vol-m", MountPoint := "/mnt/a" }
      "/mnt/b").1 "/dev/loop7" rfl (by decide) rfl (by decide) (by decide),
   ((volume_mount_exclusive mountEnvW { UUID := "vol-m", MountPoint := "/mnt/a" }
      "/mnt/a").2.1 "/dev/loop7" rfl (by decide) rfl rfl).2 "" rfl rfl⟩

/-- C10: `VolumeUmount` on a volume whose recorded mount point is empty
returns success without invoking any host command and without changing the
volume; consequently, after any successful `VolumeUmount` the follow-up
call is a no-op: it succeeds, performs no action, and leaves the volume as
it was. -/
theorem volume_umount_idempotent (env : MountEnv) (v : UtilVolume) :
    (v.MountPoint = "" → VolumeUmount env v = (.ok (), v, [])) ∧
    (∀ v2 acts, VolumeUmount env v = (.ok (), v2, acts) →
      VolumeUmount env v2 = (.ok (), v2, [])) := by
  constructor
  · intro hmp
    simp [VolumeUmount, hmp]
  · intro v2 acts h
    have hmp2 : v2.MountPoint = "" := volumeUmount_ok_mountPoint env v v2 acts h
    simp [VolumeUmount, hmp2]

/-- Concrete exercise of `volume_umount_idempotent`: unmounting a mounted
volume succeeds, and the immediately repeated call is a no-op. -/
theorem volume_umount_idempotent_witness :
    VolumeUmount mountEnvW { UUID := "vol-m", MountPoint := "" } =
      (.ok (), { UUID := "vol-m", MountPoint := "" }, []) ∧
    VolumeUmount mountEnvW { UUID := "vol-m", MountPoint := "" } =
      (.ok (), { UUID := "vol-m", MountPoint := "" }, []) ∧ True :=
  ⟨(volume_umount_idempotent mountEnvW { UUID := "vol-m", MountPoint := "" }).1 rfl,
   (volume_umount_idempotent mountEnvW { UUID := "vol-m", MountPoint := "/mnt/a" }).2
      { UUID := "vol-m", MountPoint := "" } [MountAction.umount "/mnt/a"] rfl,
   trivial⟩

end Convoy

